import Mathlib

/-!
Shallow embedding of the lifeops-nepal reminder/orchestration core:
`src/agents/nodes/Reminder.py`, `src/agents/nodes/Orchestrator.py`,
`src/mcp/servers/comms.py`, `src/agents/state.py`.

Conventions: Python `datetime` values are modelled by `PyDateTime` (calendar
fields plus the value of the `.timestamp()` method); Python exceptions are
modelled as constructors of outcome types (`HttpOutcome`, `ToolInvokeOutcome`,
`ExtractOutcome`), so a Lean function being total expresses that the embedded
Python function returns rather than raising; Python `or` / truthiness on
optional strings is `pyOr` / `pyTruthy`.
-/

/-- A role-tagged chat message (langchain `SystemMessage`/`HumanMessage`/`AIMessage`). -/
inductive Msg where
  | system (content : String)
  | human (content : String)
  | ai (content : String)
  deriving Repr, DecidableEq

/-- Model of a Python `datetime` as used by `Reminder.py`: the calendar fields
consumed by `strftime` and `CronTrigger`, plus the value of the `.timestamp()`
method (POSIX seconds, an integer since the code formats it with `:.0f`).
`dow` is `weekday()`: 0 = Monday, ..., 6 = Sunday. -/
structure PyDateTime where
  year : Nat
  month : Nat
  day : Nat
  hour : Nat
  minute : Nat
  dow : Nat
  timestampSec : Int
  deriving Repr, DecidableEq

/-- `strftime("%A")`: full day name (dow 0 = Monday, as Python `weekday()`). -/
def dayFull : Nat → String
  | 0 => "Monday"
  | 1 => "Tuesday"
  | 2 => "Wednesday"
  | 3 => "Thursday"
  | 4 => "Friday"
  | 5 => "Saturday"
  | _ => "Sunday"

/-- `strftime("%a")` lowercased, as passed to `CronTrigger(day_of_week=...)`. -/
def dayAbbrevLower : Nat → String
  | 0 => "mon"
  | 1 => "tue"
  | 2 => "wed"
  | 3 => "thu"
  | 4 => "fri"
  | 5 => "sat"
  | _ => "sun"

/-- `strftime("%b")`: abbreviated month name. -/
def monthAbbrev : Nat → String
  | 1 => "Jan"
  | 2 => "Feb"
  | 3 => "Mar"
  | 4 => "Apr"
  | 5 => "May"
  | 6 => "Jun"
  | 7 => "Jul"
  | 8 => "Aug"
  | 9 => "Sep"
  | 10 => "Oct"
  | 11 => "Nov"
  | _ => "Dec"

/-- Zero-padded two-digit field (`%d`, `%I`, `%M`). -/
def pad2 (n : Nat) : String :=
  if n < 10 then "0" ++ toString n else toString n

/-- `%I`: hour on a 12-hour clock. -/
def hour12 (h : Nat) : Nat :=
  if h % 12 = 0 then 12 else h % 12

/-- `%P`: lowercase am/pm. -/
def ampmLower (h : Nat) : String :=
  if h < 12 then "am" else "pm"

/-- `run_dt.strftime("%A, %d %b %Y at %I:%M %P")` from `_schedule_reminder`. -/
def friendlyTime (dt : PyDateTime) : String :=
  dayFull dt.dow ++ ", " ++ pad2 dt.day ++ " " ++ monthAbbrev dt.month ++ " " ++
    toString dt.year ++ " at " ++ pad2 (hour12 dt.hour) ++ ":" ++ pad2 dt.minute ++
    " " ++ ampmLower dt.hour

/-- Python truthiness of an optional string: `None` and `""` are falsy. -/
def pyTruthy : Option String → Bool
  | none => false
  | some s => !(s == "")

/-- Python `a or b` on optional strings: the first operand if truthy, else the second. -/
def pyOr (a b : Option String) : Option String :=
  if pyTruthy a then a else b

/-! ### `src/mcp/servers/comms.py`: the Notifier provider call -/

/-- The `WhatsAppResult` pydantic model of `comms.py`. -/
structure WhatsAppResult where
  status : String
  message_id : Option String := none
  error : Option String := none
  deriving Repr, DecidableEq

/-- Outcome of the `httpx` POST inside `send_whatsapp_message`, with Python
exceptions as constructors:
* `ok2xx`: 2xx response whose JSON body contains `messages[0].id`;
* `ok2xxMalformed`: 2xx response but `resp.json()` or `data["messages"][0]["id"]`
  raises (carrying `str(e)` of that exception);
* `non2xx`: `resp.raise_for_status()` raises `httpx.HTTPStatusError`;
* `timeout`: the request exceeds the client's `timeout=10` and httpx raises a
  timeout exception with message `str(e)`;
* `connectError`: any other exception raised by the request. -/
inductive HttpOutcome where
  | ok2xx (statusCode : Nat) (messageId : String)
  | ok2xxMalformed (statusCode : Nat) (exnMsg : String)
  | non2xx (statusCode : Nat) (bodyText : String)
  | timeout (exnMsg : String)
  | connectError (exnMsg : String)
  deriving Repr, DecidableEq

/-- `send_whatsapp_message` (`comms.py` lines 49-81): the try/except ladder.
Totality of this function expresses that the Python function always returns a
`WhatsAppResult` and never raises to its caller. -/
def send_whatsapp_message : HttpOutcome → WhatsAppResult
  | .ok2xx _ mid => { status := "sent", message_id := some mid }
  | .ok2xxMalformed _ e => { status := "error", error := some e }
  | .non2xx code body =>
      { status := "error", error := some ("HTTP " ++ toString code ++ ": " ++ body) }
  | .timeout e => { status := "error", error := some e }
  | .connectError e => { status := "error", error := some e }

/-- `str(e)` of the `AttributeError` raised by
`settings.whatsapp_access_token.get_secret_value()` (`comms.py` line 51) when
the token is unset: `settings.py` declares
`whatsapp_access_token: Optional[SecretStr] = None`, and calling a method on
`None` raises. -/
def noneGetSecretValueMsg : String :=
  "AttributeError: NoneType object has no attribute get_secret_value"

/-- `send_whatsapp_message` (`comms.py` lines 49-81) including the code before
the try/except: line 51 evaluates
`settings.whatsapp_access_token.get_secret_value()` while building the request
headers, outside the try, so with the optional token unset the function raises
`AttributeError` before any HTTP outcome exists. `Except.error` models an
exception propagating out of the function; with the token set, the body is the
total normalization `send_whatsapp_message`. -/
def send_whatsapp_message_full (whatsapp_access_token : Option String)
    (o : HttpOutcome) : Except String WhatsAppResult :=
  match whatsapp_access_token with
  | none => .error noneGetSecretValueMsg
  | some _ => .ok (send_whatsapp_message o)

/-! ### `Reminder.py` helper `_send_whatsapp_now` -/

/-- Outcome of `whatsapp_tool.ainvoke(...)` as seen by `_send_whatsapp_now`:
either the decoded result dict (modelled by `WhatsAppResult`) or a raised
exception with message `str(e)`. -/
inductive ToolInvokeOutcome where
  | returns (r : WhatsAppResult)
  | raises (exnMsg : String)
  deriving Repr, DecidableEq

/-- The message returned when the comms tool is not registered. -/
def whatsappToolUnavailableMsg : String :=
  "⚠️ WhatsApp tool not available. Is the comms MCP server running?"

/-- `_send_whatsapp_now` (`Reminder.py` lines 111-130). `tool = none` models
`whatsapp_tool` being `None` (capability unavailable). Total: every provider
outcome is normalized to a returned string. -/
def send_whatsapp_now (tool : Option ToolInvokeOutcome)
    (to_number message : String) : String :=
  match tool with
  | none => whatsappToolUnavailableMsg
  | some (.raises e) => "❌ WhatsApp send failed: " ++ e
  | some (.returns r) =>
      if r.status == "sent" then
        "✅ Reminder sent to " ++ to_number ++ "!\n\n📱 Message: _" ++ message ++ "_"
      else
        "❌ Failed to send reminder: " ++ r.error.getD "Unknow error occured"

/-- Outcome of `await get_mcp_tools(servers=["comms"])` at `Reminder.py` line
113. On the first call in a process `get_mcp_tools` (`client.py` lines 24-36)
opens the MCP client connection and fetches the tool list — network I/O that
raises on a connection failure — so the outcome is either a raised exception
(with message `str(e)`) or the tool list, reduced to whether a tool named
`send_whatsapp_message` is among the returned tools and, if invoked, its
outcome. -/
inductive McpToolsOutcome where
  | raises (exnMsg : String)
  | tools (whatsapp_tool : Option ToolInvokeOutcome)
  deriving Repr, DecidableEq

/-- `_send_whatsapp_now` (`Reminder.py` lines 111-130) including the tool
lookup: line 113 awaits `get_mcp_tools` outside the try/except (which only
wraps the `ainvoke` at lines 119-130), so a lookup failure propagates to the
caller — `Except.error` models that uncaught exception. Everything after the
lookup (lines 114-130) is the total normalization `send_whatsapp_now`. -/
def send_whatsapp_now_full (lookup : McpToolsOutcome)
    (to_number message : String) : Except String String :=
  match lookup with
  | .raises e => .error e
  | .tools t => .ok (send_whatsapp_now t to_number message)

/-! ### APScheduler job store and triggers -/

/-- The trigger attached to a job by `_schedule_reminder`:
`DateTrigger(run_date=run_dt)` for one-off, `CronTrigger(hour, minute)` for
daily, `CronTrigger(day_of_week, hour, minute)` for weekly (the day-of-week is
passed as `run_dt.strftime("%a").lower()`; it is kept here as the numeric
`weekday()` it encodes). -/
inductive Trigger where
  | date (run_at : PyDateTime)
  | cronDaily (hour minute : Nat)
  | cronWeekly (dow hour minute : Nat)
  deriving Repr, DecidableEq

/-- An APScheduler job as created by `scheduler.add_job(**job_kwargs)`. -/
structure Job where
  id : String
  to_number : String
  message : String
  trigger : Trigger
  deriving Repr, DecidableEq

/-- `scheduler.add_job(..., replace_existing=True)`: upsert by id into the
job store — a job with the same id is replaced in place, otherwise the job is
added. -/
def add_job (jobs : List Job) (j : Job) : List Job :=
  if jobs.any (fun k => k.id == j.id) then
    jobs.map (fun k => if k.id == j.id then j else k)
  else
    jobs ++ [j]

/-- The job id of `_schedule_reminder`:
`f"reminder_{to_number}_{run_dt.timestamp():.0f}"`. -/
def jobId (to_number : String) (run_dt : PyDateTime) : String :=
  "reminder_" ++ to_number ++ "_" ++ toString run_dt.timestampSec

/-- The trigger and repeat label chosen by `_schedule_reminder` from
`repeat_rule` (lines 144-161). -/
def mkTrigger (run_dt : PyDateTime) (repeat_rule : String) : Trigger × String :=
  if repeat_rule == "daily" then
    (.cronDaily run_dt.hour run_dt.minute, "daily")
  else if repeat_rule == "weekly" then
    (.cronWeekly run_dt.dow run_dt.hour run_dt.minute, "every " ++ dayFull run_dt.dow)
  else
    (.date run_dt, "once")

/-- The job record assembled from `job_kwargs` in `_schedule_reminder`. -/
def mkReminderJob (to_number message : String) (run_dt : PyDateTime)
    (repeat_rule : String) : Job :=
  { id := jobId to_number run_dt
    to_number := to_number
    message := message
    trigger := (mkTrigger run_dt repeat_rule).1 }

/-! ### The module-level scheduler lifecycle (`Reminder.py` lines 12-23) -/

/-- The reminder module's process-global state: `_scheduler` is `None` until
`_get_scheduler` is first called, after which it holds a started
`AsyncIOScheduler`. The scheduler is constructed as `AsyncIOScheduler()` with
no job-store argument, i.e. with APScheduler's default in-memory
`MemoryJobStore`, modelled as the plain list of jobs it holds. -/
structure ProcessState where
  scheduler : Option (List Job)
  deriving Repr, DecidableEq

/-- State at module load / process start: `_scheduler = None`. -/
def freshProcess : ProcessState := { scheduler := none }

/-- `_get_scheduler` (lines 17-23): construct-on-first-use. A fresh
`AsyncIOScheduler()` starts with an empty in-memory job store. Returns the
scheduler's job list together with the updated process state. -/
def get_scheduler (p : ProcessState) : List Job × ProcessState :=
  match p.scheduler with
  | none => ([], { scheduler := some [] })
  | some jobs => (jobs, p)

/-- A process restart: the module is reloaded, so `_scheduler = None` again;
no job-store contents carry over (the job store is in-memory only). -/
def restartProcess (_ : ProcessState) : ProcessState := freshProcess

/-- `_schedule_reminder` (lines 132-171): obtain the shared scheduler, build
`job_kwargs` and the trigger, `add_job` with `replace_existing=True`, and
return the confirmation text. -/
def schedule_reminder (p : ProcessState) (to_number message : String)
    (run_dt : PyDateTime) (repeat_rule : String) : ProcessState × String :=
  let (jobs, _) := get_scheduler p
  let j := mkReminderJob to_number message run_dt repeat_rule
  let repeat_label := (mkTrigger run_dt repeat_rule).2
  ({ scheduler := some (add_job jobs j) },
   "⏰ Reminder scheduled (" ++ repeat_label ++ ")!\n\n📅 Time: " ++
     friendlyTime run_dt ++ "\n📱 To: " ++ to_number ++ "\n💬 Message: _" ++
     message ++ "_")

/-! ### Trigger firing semantics (APScheduler `DateTrigger`/`CronTrigger`) -/

def minutesPerDay : Nat := 1440

def minutesPerWeek : Nat := 10080

/-- Next fire time of `CronTrigger(hour, minute)` strictly after minute `now`
(absolute minutes): the earliest instant after `now` whose minute-of-day is
`anchorMin`. -/
def nextDailyFire (anchorMin now : Nat) : Nat :=
  if now % minutesPerDay < anchorMin then now - now % minutesPerDay + anchorMin
  else now - now % minutesPerDay + minutesPerDay + anchorMin

/-- Next fire time of `CronTrigger(day_of_week, hour, minute)` strictly after
minute `now`: the earliest instant after `now` whose minute-of-week is
`anchorMin`. -/
def nextWeeklyFire (anchorMin now : Nat) : Nat :=
  if now % minutesPerWeek < anchorMin then now - now % minutesPerWeek + anchorMin
  else now - now % minutesPerWeek + minutesPerWeek + anchorMin

/-- APScheduler recomputes a job's next fire time from its trigger after each
firing: a `DateTrigger` has none (the job is done and removed), a cron trigger
yields the next matching instant strictly after the firing time. -/
def nextFireAfter : Trigger → Nat → Option Nat
  | .date _, _ => none
  | .cronDaily h m, now => some (nextDailyFire (h * 60 + m) now)
  | .cronWeekly d h m, now => some (nextWeeklyFire (d * minutesPerDay + h * 60 + m) now)

/-- Whether a trigger is recurring (cron) rather than one-off (date). -/
def isRecurring : Trigger → Bool
  | .date _ => false
  | .cronDaily _ _ => true
  | .cronWeekly _ _ _ => true

/-- `_fire_reminder` (lines 173-176): the scheduler callback delegates to
`_send_whatsapp_now`, which catches every exception and returns a string, so
the job function never raises into APScheduler. -/
def fire_reminder (j : Job) (tool : Option ToolInvokeOutcome) : String :=
  send_whatsapp_now tool j.to_number j.message

/-- One scheduler firing of job `j` at minute `fireTime` with provider outcome
`tool`: the delivery result string, and the next fire time recomputed from the
trigger. Because `_fire_reminder` never raises (see `fire_reminder`), the
trigger recomputation does not depend on the delivery outcome. -/
def schedulerFireStep (j : Job) (fireTime : Nat)
    (tool : Option ToolInvokeOutcome) : Option Nat × String :=
  (nextFireAfter j.trigger fireTime, fire_reminder j tool)

/-- Whether a job is due at POSIX second `now` when the scheduler starts: a
`DateTrigger` job is due when its run date is not in the future; a cron job's
first fire is the next matching future instant, so it is not due at the very
instant of startup. -/
def isDue (j : Job) (now : Int) : Bool :=
  match j.trigger with
  | .date dt => decide (dt.timestampSec ≤ now)
  | .cronDaily _ _ => false
  | .cronWeekly _ _ _ => false

/-- The jobs the scheduler fires right after startup at POSIX second `now`:
the due jobs found in its job store. -/
def firingsAtStartup (p : ProcessState) (now : Int) : List Job :=
  (get_scheduler p).1.filter (fun j => isDue j now)

/-! ### `src/agents/state.py` and the graph update semantics -/

/-- `ReminderExtraction` (`state.py` lines 29-50): the structured output of the
reminder field extraction. `repeat_rule` defaults to `"none"`. -/
structure ReminderExtraction where
  reminder_message : String
  scheduled_for : String
  to_number : Option String := none
  repeat_rule : Option String := some "none"
  deriving Repr, DecidableEq

/-- Outcome of `structured_llm.ainvoke(...)` for reminder extraction: a typed
record, or a raised exception with message `str(e)`. -/
inductive ExtractOutcome where
  | success (ex : ReminderExtraction)
  | failure (exnMsg : String)
  deriving Repr, DecidableEq

/-- `IntentClassification` (`state.py` lines 22-27). -/
structure IntentClassification where
  intent : String
  confidence : ℚ
  reasoning : String
  deriving Repr, DecidableEq

/-- Outcome of the classification `ainvoke` in `classify_intent_node`. -/
inductive ClassifyOutcome where
  | success (r : IntentClassification)
  | failure (exnMsg : String)
  deriving Repr, DecidableEq

/-- The dict a graph node returns, by key. `messages` is the value under the
`"messages"` key (the `AgentState` channel reduced by `add_messages`);
`message` is the value under the misspelled `"message"` key, which is not a
channel of `AgentState` and therefore never reaches the message history.
Absent keys are the defaults. -/
structure NodeReturn where
  messages : List Msg := []
  message : List Msg := []
  final_response : Option String := none
  intent : Option String := none
  deriving Repr, DecidableEq

/-- `AgentState` (`state.py` lines 5-20): the graph state channels relevant
here. -/
structure AgentState where
  messages : List Msg := []
  user_phone : Option String := none
  intent : Option String := none
  final_response : Option String := none
  deriving Repr, DecidableEq

/-- langgraph's `add_messages` reducer on fresh messages: append to the
ordered history. -/
def add_messages (old new : List Msg) : List Msg := old ++ new

/-- Merging a node's returned dict into `AgentState`: the `"messages"` channel
is reduced with `add_messages`; `"final_response"` and `"intent"` are
last-value channels; the `"message"` key is not part of the `AgentState`
schema and updates no channel. -/
def applyUpdate (s : AgentState) (u : NodeReturn) : AgentState :=
  { messages := add_messages s.messages u.messages
    user_phone := s.user_phone
    intent := match u.intent with | some i => some i | none => s.intent
    final_response :=
      match u.final_response with | some r => some r | none => s.final_response }

/-! ### `Reminder.py` node -/

/-- The extraction-failure reply prefix (line 69). -/
def parseFailMsg (e : String) : String :=
  "Couldn't parse your reminder. Please try again with a clearer time. " ++ e

/-- The missing-phone-number reply (lines 78-81; adjacent string literals
concatenate in Python). -/
def missingPhoneMsg : String :=
  "I couln't find a phone number to send the reminder to." ++
    "Please share your WhatsApp number (e.g. 9779812345678)."

/-- The result of one run of the reminder node: the returned dict, the
`_send_whatsapp_now` invocations it performed (recipient, body), and the
process state (scheduler/job store) it left behind. -/
structure ReminderNodeResult where
  ret : NodeReturn
  notifierCalls : List (String × String)
  proc : ProcessState
  deriving Repr, DecidableEq

/-- `reminder_agent_node` (`Reminder.py` lines 55-108) after the LLM call,
with the extraction outcome, the session's `user_phone`, Python's
`datetime.fromisoformat` (as an oracle `String → Option PyDateTime`, `none`
meaning it raises `ValueError`), the comms tool outcome, and the process state
as explicit inputs.

Flow: on extraction failure, reply under the `"messages"` key; resolve the
phone number with Python `or` over (override, session default), replying under
`"messages"` when falsy; `send_now` when `scheduled_for.lower() == "now"` or
`fromisoformat` raises; immediate sends call `_send_whatsapp_now` once;
otherwise `_schedule_reminder` upserts a job. Both success paths return their
reply under the misspelled `"message"` key. -/
def reminder_agent_node (extraction : ExtractOutcome) (user_phone : Option String)
    (fromisoformat : String → Option PyDateTime)
    (tool : Option ToolInvokeOutcome) (p : ProcessState) : ReminderNodeResult :=
  match extraction with
  | .failure e =>
      { ret := { messages := [Msg.ai (parseFailMsg e)], final_response := some (parseFailMsg e) }
        notifierCalls := []
        proc := p }
  | .success ex =>
      let to_number := pyOr ex.to_number user_phone
      if pyTruthy to_number then
        let num := to_number.getD ""
        let parsed : Option PyDateTime :=
          if ex.scheduled_for.toLower == "now" then none
          else fromisoformat ex.scheduled_for
        match parsed with
        | none =>
            let response_text := send_whatsapp_now tool num ex.reminder_message
            { ret := { message := [Msg.ai response_text], final_response := some response_text }
              notifierCalls := [(num, ex.reminder_message)]
              proc := p }
        | some run_dt =>
            let r := schedule_reminder p num ex.reminder_message run_dt
              ((pyOr ex.repeat_rule (some "none")).getD "none")
            { ret := { message := [Msg.ai r.2], final_response := some r.2 }
              notifierCalls := []
              proc := r.1 }
      else
        { ret := { messages := [Msg.ai missingPhoneMsg], final_response := some missingPhoneMsg }
          notifierCalls := []
          proc := p }

/-! ### `Orchestrator.py` -/

/-- `classify_intent_node` (`Orchestrator.py` lines 56-76): with no messages
the intent is `"unknown"`; on a successful structured call the classified
intent; on any raised exception the fallback `"unknown"`. -/
def classify_intent_node (messages : List Msg) (outcome : ClassifyOutcome) : NodeReturn :=
  if messages.isEmpty then { intent := some "unknown" }
  else
    match outcome with
    | .success r => { intent := some r.intent }
    | .failure _ => { intent := some "unknown" }

/-- `route_to_agent` (`Orchestrator.py` lines 79-86): dict lookup on
`state.get("intent", "unknown")` with default `"unknown_handler"`. -/
def route_to_agent (intent : Option String) : String :=
  let label := intent.getD "unknown"
  if label == "travel_planning" then "travel_agent"
  else if label == "reminder" then "reminder_agent"
  else if label == "creative" then "creative_agent"
  else if label == "unknown" then "unknown_handler"
  else "unknown_handler"

/-- The fixed reply of `unknown_handler_node` (lines 92-98). -/
def unknownHandlerText : String :=
  "I'm your personal life admin assistant. Here's what I can help with:\n\n" ++
    "✈️  **Travel** — flights, hotels, weather, destination tips, itineraries\n" ++
    "🔔  **Reminders** — send yourself a WhatsApp reminder at any time\n" ++
    "🎨  **Creative** — AI moodboards and image generation\n\n" ++
    "What would you like to do?"

/-- `unknown_handler_node` (`Orchestrator.py` lines 89-103): returns its reply
under the misspelled `"message"` key and sets `final_response`. -/
def unknown_handler_node : NodeReturn :=
  { message := [Msg.ai unknownHandlerText], final_response := some unknownHandlerText }

/-! ## Helper lemmas -/

theorem lt_nextDailyFire (a t : Nat) : t < nextDailyFire a t := by
  unfold nextDailyFire minutesPerDay
  split <;> omega

theorem lt_nextWeeklyFire (a t : Nat) : t < nextWeeklyFire a t := by
  unfold nextWeeklyFire minutesPerWeek
  split <;> omega

/-! ## Claims -/

/-- C7: if the classification call fails (any raised error, or a
malformed/missing structured response surfacing as one), `classify_intent_node`
returns intent `"unknown"` instead of propagating the error; the function is
total, so classification failure is never fatal to the turn. -/
theorem classify_failure_yields_unknown :
    ∀ (messages : List Msg) (e : String),
      classify_intent_node messages (.failure e) = { intent := some "unknown" } := by
  intro messages e
  unfold classify_intent_node
  split <;> rfl

/-- C5 counterexample: the claim says send never raises to its caller, with
an unavailable capability (the spec includes "provider not reachable")
returning the capability-unavailable failure. But with the comms MCP server
unreachable, the tool lookup at `Reminder.py` line 113 raises outside the
try/except and the exception propagates out of `_send_whatsapp_now` instead
of any failure result being returned. -/
theorem notifier_unreachable_provider_raises :
    send_whatsapp_now_full (.raises "All connection attempts failed")
        "9779812345678" "drink water" =
      Except.error "All connection attempts failed" ∧
    send_whatsapp_now_full (.raises "All connection attempts failed")
        "9779812345678" "drink water" ≠
      Except.ok whatsappToolUnavailableMsg := by
  refine ⟨rfl, ?_⟩
  simp [send_whatsapp_now_full]

/-- C5 (amended): when the messaging capability is merely not registered (the
tool lookup returns but no `send_whatsapp_message` tool is present),
`_send_whatsapp_now` returns the capability-unavailable message without
throwing, and whenever the tool lookup returns it never raises; with the
access token set, `send_whatsapp_message` returns on every HTTP outcome,
normalizing every provider error — non-2xx, timeout of the timeout-bounded
HTTP call, malformed response, or an exception from the invoked tool — to a
failed result carrying the reason, the timeout surfaced as a failed result
rather than an unhandled fault. However, send raises to its caller when the
provider is not reachable (the tool lookup fails) and when the access token
is unset (`AttributeError` before the HTTP call). -/
theorem notifier_normalization_scope :
    (∀ n m, send_whatsapp_now_full (.tools none) n m =
      Except.ok whatsappToolUnavailableMsg) ∧
    (∀ t n m, send_whatsapp_now_full (.tools t) n m =
      Except.ok (send_whatsapp_now t n m)) ∧
    (∀ tok o, send_whatsapp_message_full (some tok) o =
      Except.ok (send_whatsapp_message o)) ∧
    (∀ o : HttpOutcome,
      (send_whatsapp_message o).status = "sent" ∨
        (send_whatsapp_message o).status = "error") ∧
    (∀ e, send_whatsapp_message (.timeout e) =
      { status := "error", error := some e }) ∧
    (∀ code body, send_whatsapp_message (.non2xx code body) =
      { status := "error", error := some ("HTTP " ++ toString code ++ ": " ++ body) }) ∧
    (∀ c e, send_whatsapp_message (.ok2xxMalformed c e) =
      { status := "error", error := some e }) ∧
    (∀ e n m, send_whatsapp_now (some (.raises e)) n m =
      "❌ WhatsApp send failed: " ++ e) ∧
    (∀ e n m, send_whatsapp_now_full (.raises e) n m = Except.error e) ∧
    (∀ o, send_whatsapp_message_full none o = Except.error noneGetSecretValueMsg) := by
  refine ⟨?_, ?_, ?_, ?_, ?_, ?_, ?_, ?_, ?_, ?_⟩
  · intro n m; rfl
  · intro t n m; rfl
  · intro tok o; rfl
  · intro o; cases o <;> simp [send_whatsapp_message]
  · intro e; rfl
  · intro code body; rfl
  · intro c e; rfl
  · intro e n m; rfl
  · intro e n m; rfl
  · intro o; rfl

/-- C6: dispatch is total: each label of the closed intent set
`{travel_planning, reminder, creative, unknown}` routes to its matching
handler; a missing intent and every other string route to the unknown
handler. -/
theorem dispatch_total (s : String)
    (hs : s ∉ (["travel_planning", "reminder", "creative", "unknown"] : List String)) :
    route_to_agent (some "travel_planning") = "travel_agent" ∧
    route_to_agent (some "reminder") = "reminder_agent" ∧
    route_to_agent (some "creative") = "creative_agent" ∧
    route_to_agent (some "unknown") = "unknown_handler" ∧
    route_to_agent none = "unknown_handler" ∧
    route_to_agent (some s) = "unknown_handler" := by
  refine ⟨rfl, rfl, rfl, rfl, rfl, ?_⟩
  simp only [List.mem_cons, List.not_mem_nil, or_false] at hs
  push_neg at hs
  obtain ⟨h1, h2, h3, h4⟩ := hs
  simp [route_to_agent, h1, h2, h3, h4]

/-- Witness for C6 at the concrete out-of-set label `"hello"`. -/
theorem dispatch_total_witness :
    route_to_agent (some "travel_planning") = "travel_agent" ∧
    route_to_agent (some "reminder") = "reminder_agent" ∧
    route_to_agent (some "creative") = "creative_agent" ∧
    route_to_agent (some "unknown") = "unknown_handler" ∧
    route_to_agent none = "unknown_handler" ∧
    route_to_agent (some "hello") = "unknown_handler" :=
  dispatch_total "hello" (by decide)

/-- C4: for every recurring job (daily or weekly), the next fire time
recomputed after a firing is strictly after the firing time, and the
recomputation is the same for every delivery outcome (success, provider
failure, tool unavailable): delivery success or failure cannot change it. -/
theorem recurring_next_fire_strictly_future (j : Job) (t : Nat)
    (hrec : isRecurring j.trigger = true) :
    ∃ t', (∀ tool : Option ToolInvokeOutcome,
        (schedulerFireStep j t tool).1 = some t') ∧ t < t' := by
  match htr : j.trigger with
  | .date dt => rw [htr] at hrec; simp [isRecurring] at hrec
  | .cronDaily h m =>
      refine ⟨nextDailyFire (h * 60 + m) t, fun tool => ?_, lt_nextDailyFire _ _⟩
      simp [schedulerFireStep, nextFireAfter, htr]
  | .cronWeekly d h m =>
      refine ⟨nextWeeklyFire (d * minutesPerDay + h * 60 + m) t, fun tool => ?_,
        lt_nextWeeklyFire _ _⟩
      simp [schedulerFireStep, nextFireAfter, htr]

/-- Witness for C4: a concrete daily job fired at minute 100000. -/
theorem recurring_next_fire_strictly_future_witness :
    ∃ t', (∀ tool : Option ToolInvokeOutcome,
        (schedulerFireStep
          { id := "reminder_9779812345678_1767286800"
            to_number := "9779812345678"
            message := "stretch"
            trigger := .cronDaily 7 0 } 100000 tool).1 = some t') ∧ 100000 < t' :=
  recurring_next_fire_strictly_future
    { id := "reminder_9779812345678_1767286800"
      to_number := "9779812345678"
      message := "stretch"
      trigger := .cronDaily 7 0 } 100000 (by decide)

theorem map_id_add_job_replace (s : List Job) (j : Job) :
    (s.map (fun k => if k.id == j.id then j else k)).map Job.id = s.map Job.id := by
  induction s with
  | nil => rfl
  | cons a t ih =>
      simp only [List.map_cons, ih, List.cons.injEq, and_true]
      by_cases h : (a.id == j.id) = true
      · simp only [h, if_true]
        exact (eq_of_beq h).symm
      · simp [h]

theorem nodup_ids_add_job (s : List Job) (j : Job)
    (h : (s.map Job.id).Nodup) : ((add_job s j).map Job.id).Nodup := by
  unfold add_job
  split
  · rw [map_id_add_job_replace]; exact h
  · rename_i hany
    rw [List.map_append]
    simp only [List.map_cons, List.map_nil]
    rw [List.nodup_append]
    refine ⟨h, List.nodup_singleton _, ?_⟩
    intro x hx
    simp only [List.mem_singleton]
    intro hxj
    subst hxj
    rw [List.mem_map] at hx
    obtain ⟨k, hk, hkid⟩ := hx
    have : s.any (fun k => k.id == j.id) = true :=
      List.any_eq_true.2 ⟨k, hk, by rw [hkid]; simp⟩
    simp [this] at hany

theorem mem_of_nodup_head_ne {t : List Job} {a k : Job}
    (hnotin : a.id ∉ t.map Job.id) (hk : k ∈ t) : k.id ≠ a.id := by
  intro hkj
  exact hnotin (List.mem_map.2 ⟨k, hk, hkj⟩)

theorem filter_replace_of_nodup (s : List Job) (j : Job)
    (h : (s.map Job.id).Nodup)
    (hany : s.any (fun k => k.id == j.id) = true) :
    (s.map (fun k => if k.id == j.id then j else k)).filter
      (fun k => k.id == j.id) = [j] := by
  induction s with
  | nil => simp at hany
  | cons a t ih =>
      simp only [List.map_cons, List.nodup_cons] at h
      obtain ⟨hnotin, hnodup⟩ := h
      by_cases ha : (a.id == j.id) = true
      · have haid : a.id = j.id := eq_of_beq ha
        have hmap : t.map (fun k => if k.id == j.id then j else k) = t := by
          have : t.map (fun k => if k.id == j.id then j else k) = t.map id := by
            apply List.map_congr_left
            intro k hk
            have hne : (k.id == j.id) = false := by
              rw [beq_eq_false_iff_ne]
              rw [← haid]
              exact mem_of_nodup_head_ne hnotin hk
            simp [hne]
          rw [this, List.map_id]
        simp only [List.map_cons, ha, if_true, hmap]
        rw [List.filter_cons_of_pos (by simp)]
        rw [List.filter_eq_nil_iff.2 ?_]
        intro k hk
        simp only [Bool.not_eq_true, beq_eq_false_iff_ne, ← haid]
        exact mem_of_nodup_head_ne hnotin hk
      · have hany' : t.any (fun k => k.id == j.id) = true := by
          rw [List.any_cons] at hany
          simpa [ha] using hany
        simp only [List.map_cons, ha, if_false]
        rw [List.filter_cons_of_neg (by simp [ha])]
        exact ih hnodup hany'

theorem filter_add_job (s : List Job) (j : Job) (h : (s.map Job.id).Nodup) :
    (add_job s j).filter (fun k => k.id == j.id) = [j] := by
  unfold add_job
  split
  · rename_i hany
    exact filter_replace_of_nodup s j h hany
  · rename_i hany
    rw [List.filter_append]
    rw [List.filter_eq_nil_iff.2 ?_]
    · simp
    · intro k hk hp
      exact hany (List.any_eq_true.2 ⟨k, hk, hp⟩)

/-- C2: the job id is a deterministic function of (recipient, fire time), and
scheduling a reminder twice with the same recipient and the same original fire
time (same `timestamp()`) leaves exactly one live job with that id in the job
store, whose schedule (trigger), payload and recurrence are those of the
second upsert. -/
theorem upsert_same_id_second_wins
    (p : ProcessState) (hids : ((get_scheduler p).1.map Job.id).Nodup)
    (n m₁ m₂ : String) (dt₁ dt₂ : PyDateTime) (r₁ r₂ : String)
    (hts : dt₁.timestampSec = dt₂.timestampSec) :
    jobId n dt₁ = jobId n dt₂ ∧
    (get_scheduler
        (schedule_reminder (schedule_reminder p n m₁ dt₁ r₁).1 n m₂ dt₂ r₂).1).1.filter
      (fun k => k.id == jobId n dt₂) = [mkReminderJob n m₂ dt₂ r₂] := by
  have hsch : ∀ (q : ProcessState) (m : String) (dt : PyDateTime) (r : String),
      (schedule_reminder q n m dt r).1 =
        { scheduler := some (add_job (get_scheduler q).1 (mkReminderJob n m dt r)) } :=
    fun q m dt r => rfl
  constructor
  · unfold jobId; rw [hts]
  · rw [hsch, hsch]
    show (add_job (add_job (get_scheduler p).1 (mkReminderJob n m₁ dt₁ r₁))
        (mkReminderJob n m₂ dt₂ r₂)).filter (fun k => k.id == jobId n dt₂) =
      [mkReminderJob n m₂ dt₂ r₂]
    exact filter_add_job (add_job (get_scheduler p).1 (mkReminderJob n m₁ dt₁ r₁))
      (mkReminderJob n m₂ dt₂ r₂)
      (nodup_ids_add_job (get_scheduler p).1 (mkReminderJob n m₁ dt₁ r₁) hids)

/-- Witness for C2: two upserts of the reminder for recipient
`9779812345678` at the same fire time, starting from a fresh process. -/
theorem upsert_same_id_second_wins_witness :
    jobId "9779812345678" ⟨2026, 1, 1, 17, 0, 3, 1767286800⟩ =
      jobId "9779812345678" ⟨2026, 1, 1, 17, 0, 3, 1767286800⟩ ∧
    (get_scheduler
        (schedule_reminder
          (schedule_reminder freshProcess "9779812345678" "call mom"
            ⟨2026, 1, 1, 17, 0, 3, 1767286800⟩ "none").1
          "9779812345678" "call mom at five"
          ⟨2026, 1, 1, 17, 0, 3, 1767286800⟩ "daily").1).1.filter
      (fun k => k.id == jobId "9779812345678" ⟨2026, 1, 1, 17, 0, 3, 1767286800⟩) =
      [mkReminderJob "9779812345678" "call mom at five"
        ⟨2026, 1, 1, 17, 0, 3, 1767286800⟩ "daily"] :=
  upsert_same_id_second_wins freshProcess (by decide) "9779812345678"
    "call mom" "call mom at five" ⟨2026, 1, 1, 17, 0, 3, 1767286800⟩
    ⟨2026, 1, 1, 17, 0, 3, 1767286800⟩ "none" "daily" rfl

theorem reminder_node_failure (e : String) (user_phone : Option String)
    (f : String → Option PyDateTime) (tool : Option ToolInvokeOutcome)
    (p : ProcessState) :
    reminder_agent_node (.failure e) user_phone f tool p =
      { ret := { messages := [Msg.ai (parseFailMsg e)]
                 final_response := some (parseFailMsg e) }
        notifierCalls := []
        proc := p } := rfl

theorem reminder_node_missing_phone (ex : ReminderExtraction)
    (user_phone : Option String) (f : String → Option PyDateTime)
    (tool : Option ToolInvokeOutcome) (p : ProcessState)
    (h : pyTruthy (pyOr ex.to_number user_phone) = false) :
    reminder_agent_node (.success ex) user_phone f tool p =
      { ret := { messages := [Msg.ai missingPhoneMsg]
                 final_response := some missingPhoneMsg }
        notifierCalls := []
        proc := p } := by
  unfold reminder_agent_node
  simp [h]

theorem reminder_node_send_now (ex : ReminderExtraction)
    (user_phone : Option String) (f : String → Option PyDateTime)
    (tool : Option ToolInvokeOutcome) (p : ProcessState)
    (h : pyTruthy (pyOr ex.to_number user_phone) = true)
    (ht : (ex.scheduled_for.toLower == "now") = true ∨ f ex.scheduled_for = none) :
    reminder_agent_node (.success ex) user_phone f tool p =
      { ret := { message := [Msg.ai (send_whatsapp_now tool
                  ((pyOr ex.to_number user_phone).getD "") ex.reminder_message)]
                 final_response := some (send_whatsapp_now tool
                  ((pyOr ex.to_number user_phone).getD "") ex.reminder_message) }
        notifierCalls := [((pyOr ex.to_number user_phone).getD "", ex.reminder_message)]
        proc := p } := by
  unfold reminder_agent_node
  rcases ht with ht | ht
  · simp [h, ht]
  · by_cases hn : (ex.scheduled_for.toLower == "now") = true
    · simp [h, hn]
    · simp [h, hn, ht]

theorem reminder_node_schedule (ex : ReminderExtraction)
    (user_phone : Option String) (f : String → Option PyDateTime)
    (tool : Option ToolInvokeOutcome) (p : ProcessState) (dt : PyDateTime)
    (h : pyTruthy (pyOr ex.to_number user_phone) = true)
    (hn : (ex.scheduled_for.toLower == "now") = false)
    (hf : f ex.scheduled_for = some dt) :
    reminder_agent_node (.success ex) user_phone f tool p =
      { ret := { message := [Msg.ai (schedule_reminder p
                  ((pyOr ex.to_number user_phone).getD "") ex.reminder_message dt
                  ((pyOr ex.repeat_rule (some "none")).getD "none")).2]
                 final_response := some ((schedule_reminder p
                  ((pyOr ex.to_number user_phone).getD "") ex.reminder_message dt
                  ((pyOr ex.repeat_rule (some "none")).getD "none")).2) }
        notifierCalls := []
        proc := (schedule_reminder p
                  ((pyOr ex.to_number user_phone).getD "") ex.reminder_message dt
                  ((pyOr ex.repeat_rule (some "none")).getD "none")).1 } := by
  unfold reminder_agent_node
  simp [h, hn, hf]

/-- C3: for a successful extraction that reaches time resolution (a recipient
resolved), a time expression equal to the immediate sentinel `"now"` (after
lowercasing) or one `datetime.fromisoformat` fails to parse leads to exactly
one `_send_whatsapp_now` invocation, leaves the scheduler/job store untouched,
and returns the Notifier's result as the response rather than an error. -/
theorem immediate_time_sends_once_no_job (ex : ReminderExtraction)
    (user_phone : Option String) (f : String → Option PyDateTime)
    (tool : Option ToolInvokeOutcome) (p : ProcessState)
    (hnum : pyTruthy (pyOr ex.to_number user_phone) = true)
    (ht : (ex.scheduled_for.toLower == "now") = true ∨ f ex.scheduled_for = none) :
    (reminder_agent_node (.success ex) user_phone f tool p).notifierCalls.length = 1 ∧
    (reminder_agent_node (.success ex) user_phone f tool p).proc = p ∧
    (reminder_agent_node (.success ex) user_phone f tool p).ret.final_response =
      some (send_whatsapp_now tool ((pyOr ex.to_number user_phone).getD "")
        ex.reminder_message) := by
  rw [reminder_node_send_now ex user_phone f tool p hnum ht]
  exact ⟨rfl, rfl, rfl⟩

/-- Witness for C3: time expression `"maybe later"` that fails to parse, with
an explicit recipient, from a fresh process. -/
theorem immediate_time_sends_once_no_job_witness :
    (reminder_agent_node
        (.success { reminder_message := "drink water", scheduled_for := "maybe later",
                    to_number := some "9779812345678" })
        none (fun _ => none) none freshProcess).notifierCalls.length = 1 ∧
    (reminder_agent_node
        (.success { reminder_message := "drink water", scheduled_for := "maybe later",
                    to_number := some "9779812345678" })
        none (fun _ => none) none freshProcess).proc = freshProcess ∧
    (reminder_agent_node
        (.success { reminder_message := "drink water", scheduled_for := "maybe later",
                    to_number := some "9779812345678" })
        none (fun _ => none) none freshProcess).ret.final_response =
      some (send_whatsapp_now none
        ((pyOr (some "9779812345678") none).getD "") "drink water") :=
  immediate_time_sends_once_no_job
    { reminder_message := "drink water", scheduled_for := "maybe later",
      to_number := some "9779812345678" }
    none (fun _ => none) none freshProcess (by decide) (Or.inr rfl)

/-- C8: with no explicit recipient override and no session default phone
number, the reminder node returns the ask-for-a-number validation message,
performs no Notifier call, and leaves the scheduler/job store untouched. -/
theorem missing_recipient_no_effects (ex : ReminderExtraction)
    (f : String → Option PyDateTime) (tool : Option ToolInvokeOutcome)
    (p : ProcessState) (hov : ex.to_number = none) :
    (reminder_agent_node (.success ex) none f tool p).ret.final_response =
      some missingPhoneMsg ∧
    (reminder_agent_node (.success ex) none f tool p).ret.messages =
      [Msg.ai missingPhoneMsg] ∧
    (reminder_agent_node (.success ex) none f tool p).notifierCalls = [] ∧
    (reminder_agent_node (.success ex) none f tool p).proc = p := by
  have h : pyTruthy (pyOr ex.to_number none) = false := by rw [hov]; rfl
  rw [reminder_node_missing_phone ex none f tool p h]
  exact ⟨rfl, rfl, rfl, rfl⟩

/-- Witness for C8 at a concrete extraction with no recipient anywhere. -/
theorem missing_recipient_no_effects_witness :
    (reminder_agent_node
        (.success { reminder_message := "call mom", scheduled_for := "now" })
        none (fun _ => none) none freshProcess).ret.final_response =
      some missingPhoneMsg ∧
    (reminder_agent_node
        (.success { reminder_message := "call mom", scheduled_for := "now" })
        none (fun _ => none) none freshProcess).ret.messages =
      [Msg.ai missingPhoneMsg] ∧
    (reminder_agent_node
        (.success { reminder_message := "call mom", scheduled_for := "now" })
        none (fun _ => none) none freshProcess).notifierCalls = [] ∧
    (reminder_agent_node
        (.success { reminder_message := "call mom", scheduled_for := "now" })
        none (fun _ => none) none freshProcess).proc = freshProcess :=
  missing_recipient_no_effects
    { reminder_message := "call mom", scheduled_for := "now" }
    (fun _ => none) none freshProcess rfl

theorem reminder_node_to_number_congr (ex ex' : ReminderExtraction)
    (user_phone : Option String) (f : String → Option PyDateTime)
    (tool : Option ToolInvokeOutcome) (p : ProcessState)
    (hmsg : ex.reminder_message = ex'.reminder_message)
    (hsch : ex.scheduled_for = ex'.scheduled_for)
    (hrep : ex.repeat_rule = ex'.repeat_rule)
    (hor : pyOr ex.to_number user_phone = pyOr ex'.to_number user_phone) :
    reminder_agent_node (.success ex) user_phone f tool p =
      reminder_agent_node (.success ex') user_phone f tool p := by
  simp only [reminder_agent_node]
  rw [hor, hmsg, hsch, hrep]

/-- C10: an empty-string explicit recipient override is treated as absent:
the node behaves exactly as if the override were the session default (the
fall-back), and when the session default is also absent or empty it returns
the missing-recipient validation message with no Notifier call and no job
mutation. -/
theorem empty_override_falls_back (ex : ReminderExtraction)
    (user_phone : Option String) (f : String → Option PyDateTime)
    (tool : Option ToolInvokeOutcome) (p : ProcessState)
    (hov : ex.to_number = some "") :
    reminder_agent_node (.success ex) user_phone f tool p =
      reminder_agent_node (.success { ex with to_number := user_phone })
        user_phone f tool p ∧
    ((user_phone = none ∨ user_phone = some "") →
      (reminder_agent_node (.success ex) user_phone f tool p).ret.final_response =
        some missingPhoneMsg ∧
      (reminder_agent_node (.success ex) user_phone f tool p).notifierCalls = [] ∧
      (reminder_agent_node (.success ex) user_phone f tool p).proc = p) := by
  have hpy : pyOr (some "") user_phone = pyOr user_phone user_phone := by
    cases user_phone <;> simp [pyOr, pyTruthy]
  constructor
  · exact reminder_node_to_number_congr ex { ex with to_number := user_phone }
      user_phone f tool p rfl rfl rfl (by rw [hov]; exact hpy)
  · intro hup
    have h : pyTruthy (pyOr ex.to_number user_phone) = false := by
      rw [hov]
      rcases hup with h | h <;> rw [h] <;> rfl
    rw [reminder_node_missing_phone ex user_phone f tool p h]
    exact ⟨rfl, rfl, rfl⟩

/-- Witness for C10: empty-string override with an absent session default. -/
theorem empty_override_falls_back_witness :
    reminder_agent_node
        (.success { reminder_message := "call mom", scheduled_for := "now",
                    to_number := some "" })
        none (fun _ => none) none freshProcess =
      reminder_agent_node
        (.success { reminder_message := "call mom", scheduled_for := "now",
                    to_number := none })
        none (fun _ => none) none freshProcess ∧
    ((reminder_agent_node
        (.success { reminder_message := "call mom", scheduled_for := "now",
                    to_number := some "" })
        none (fun _ => none) none freshProcess).ret.final_response =
      some missingPhoneMsg ∧
    (reminder_agent_node
        (.success { reminder_message := "call mom", scheduled_for := "now",
                    to_number := some "" })
        none (fun _ => none) none freshProcess).notifierCalls = [] ∧
    (reminder_agent_node
        (.success { reminder_message := "call mom", scheduled_for := "now",
                    to_number := some "" })
        none (fun _ => none) none freshProcess).proc = freshProcess) :=
  ⟨(empty_override_falls_back
      { reminder_message := "call mom", scheduled_for := "now", to_number := some "" }
      none (fun _ => none) none freshProcess rfl).1,
   (empty_override_falls_back
      { reminder_message := "call mom", scheduled_for := "now", to_number := some "" }
      none (fun _ => none) none freshProcess rfl).2 (Or.inl rfl)⟩

/-- C9: merging node returns into the graph state: on the reminder node's
success paths (immediate send attempted, or job scheduled — the reply sits
under the misspelled `"message"` key, which is not an `AgentState` channel)
and in the unknown handler, `final_response` is set but the ordered message
history is unchanged (no `AIMessage` appended); the extraction-failure and
missing-recipient paths (which reply under the `"messages"` key) do append
exactly one `AIMessage` to the history. -/
theorem success_paths_leave_history_unchanged (s : AgentState)
    (ex ex2 : ReminderExtraction) (e : String)
    (f : String → Option PyDateTime) (tool : Option ToolInvokeOutcome)
    (p : ProcessState)
    (hrec : pyTruthy (pyOr ex.to_number s.user_phone) = true)
    (hno : pyTruthy (pyOr ex2.to_number s.user_phone) = false) :
    ((applyUpdate s (reminder_agent_node (.success ex) s.user_phone f tool p).ret).messages
        = s.messages ∧
      (reminder_agent_node (.success ex) s.user_phone f tool p).ret.final_response
        ≠ none) ∧
    ((applyUpdate s unknown_handler_node).messages = s.messages ∧
      (applyUpdate s unknown_handler_node).final_response = some unknownHandlerText) ∧
    ((applyUpdate s (reminder_agent_node (.failure e) s.user_phone f tool p).ret).messages
        = s.messages ++ [Msg.ai (parseFailMsg e)]) ∧
    ((applyUpdate s (reminder_agent_node (.success ex2) s.user_phone f tool p).ret).messages
        = s.messages ++ [Msg.ai missingPhoneMsg]) := by
  refine ⟨?_, ⟨?_, ?_⟩, ?_, ?_⟩
  · have hsucc : (reminder_agent_node (.success ex) s.user_phone f tool p).ret.messages
          = [] ∧
        (reminder_agent_node (.success ex) s.user_phone f tool p).ret.final_response
          ≠ none := by
      cases hn : (ex.scheduled_for.toLower == "now") with
      | true =>
          rw [reminder_node_send_now ex s.user_phone f tool p hrec (Or.inl hn)]
          exact ⟨rfl, by simp⟩
      | false =>
          cases hf : f ex.scheduled_for with
          | none =>
              rw [reminder_node_send_now ex s.user_phone f tool p hrec (Or.inr hf)]
              exact ⟨rfl, by simp⟩
          | some dt =>
              rw [reminder_node_schedule ex s.user_phone f tool p dt hrec hn hf]
              exact ⟨rfl, by simp⟩
    refine ⟨?_, hsucc.2⟩
    simp [applyUpdate, add_messages, hsucc.1]
  · simp [applyUpdate, add_messages, unknown_handler_node]
  · simp [applyUpdate, unknown_handler_node]
  · rw [reminder_node_failure]
    simp [applyUpdate, add_messages]
  · rw [reminder_node_missing_phone ex2 s.user_phone f tool p hno]
    simp [applyUpdate, add_messages]

/-- Witness for C9: a concrete session with one prior message, a truthy
override for the success path and no recipient for the validation path. -/
theorem success_paths_leave_history_unchanged_witness :
    ((applyUpdate { messages := [Msg.human "hi"] }
        (reminder_agent_node
          (.success { reminder_message := "drink water", scheduled_for := "now",
                      to_number := some "9779812345678" })
          ({ messages := [Msg.human "hi"] } : AgentState).user_phone
          (fun _ => none) none freshProcess).ret).messages
        = ({ messages := [Msg.human "hi"] } : AgentState).messages ∧
      (reminder_agent_node
          (.success { reminder_message := "drink water", scheduled_for := "now",
                      to_number := some "9779812345678" })
          ({ messages := [Msg.human "hi"] } : AgentState).user_phone
          (fun _ => none) none freshProcess).ret.final_response ≠ none) ∧
    ((applyUpdate { messages := [Msg.human "hi"] } unknown_handler_node).messages
        = ({ messages := [Msg.human "hi"] } : AgentState).messages ∧
      (applyUpdate { messages := [Msg.human "hi"] } unknown_handler_node).final_response
        = some unknownHandlerText) ∧
    ((applyUpdate { messages := [Msg.human "hi"] }
        (reminder_agent_node (.failure "bad json")
          ({ messages := [Msg.human "hi"] } : AgentState).user_phone
          (fun _ => none) none freshProcess).ret).messages
        = ({ messages := [Msg.human "hi"] } : AgentState).messages
            ++ [Msg.ai (parseFailMsg "bad json")]) ∧
    ((applyUpdate { messages := [Msg.human "hi"] }
        (reminder_agent_node
          (.success { reminder_message := "drink water", scheduled_for := "now" })
          ({ messages := [Msg.human "hi"] } : AgentState).user_phone
          (fun _ => none) none freshProcess).ret).messages
        = ({ messages := [Msg.human "hi"] } : AgentState).messages
            ++ [Msg.ai missingPhoneMsg]) :=
  success_paths_leave_history_unchanged { messages := [Msg.human "hi"] }
    { reminder_message := "drink water", scheduled_for := "now",
      to_number := some "9779812345678" }
    { reminder_message := "drink water", scheduled_for := "now" }
    "bad json" (fun _ => none) none freshProcess (by decide) (by decide)

/-- C1: the claim requires that jobs pending before a Scheduler process
restart are reloaded and re-armed, a past-due pending job firing exactly once
shortly after startup. The code cannot do this: `_get_scheduler` builds
`AsyncIOScheduler()` with the default in-memory job store and the module
global `_scheduler` is `None` again after a restart, so the job store starts
empty. Concretely: a one-off job scheduled for a past `fire_at` is live and
due before the restart, but after the restart the store is empty and the
number of startup firings is zero, not one. -/
theorem restart_loses_pending_job :
    (get_scheduler (schedule_reminder freshProcess "9779812345678" "call mom"
        ⟨2026, 1, 1, 17, 0, 3, 1767286800⟩ "none").1).1 =
      [mkReminderJob "9779812345678" "call mom"
        ⟨2026, 1, 1, 17, 0, 3, 1767286800⟩ "none"] ∧
    firingsAtStartup (schedule_reminder freshProcess "9779812345678" "call mom"
        ⟨2026, 1, 1, 17, 0, 3, 1767286800⟩ "none").1 1767373200 =
      [mkReminderJob "9779812345678" "call mom"
        ⟨2026, 1, 1, 17, 0, 3, 1767286800⟩ "none"] ∧
    (get_scheduler (restartProcess (schedule_reminder freshProcess "9779812345678"
        "call mom" ⟨2026, 1, 1, 17, 0, 3, 1767286800⟩ "none").1)).1 = [] ∧
    firingsAtStartup (restartProcess (schedule_reminder freshProcess "9779812345678"
        "call mom" ⟨2026, 1, 1, 17, 0, 3, 1767286800⟩ "none").1) 1767373200 = [] := by
  refine ⟨by decide, by decide, rfl, rfl⟩
